import Mathlib

/-!
Shallow embedding of the AI request gateway of `scripts/ai-utils.js`:
the API-key redaction helper `maskApiKey`, the transport/retry loop
`makeRequest`, the provider factory `createAIProvider`, the Claude
request builder, the three response parsers, and the `callAI` facade.

Modelling conventions:
* JavaScript strings are Lean `String`s, except the argument of
  `maskApiKey`, which is modelled as `Option (List Char)` so that
  character-level facts (which characters of the key appear in the
  redacted output) can be stated; `none` stands for `undefined`/`null`.
* JavaScript objects parsed from JSON response bodies are modelled by
  the inductive type `JsValue`; property access on `undefined` throws a
  `TypeError`, access of a missing field on an object yields `undef`,
  matching JavaScript semantics.
* `makeRequest` abstracts the network as a `backend : Nat → Outcome`
  giving the outcome of each attempt (indexed from 0).  A JavaScript
  promise settles at its first `resolve`/`reject`; in the source the
  per-attempt timeout handler calls `reject` directly, so a timed-out
  attempt settles the promise immediately and the `Outcome.timedOut`
  branch below returns without recursing.
* The exponent `2 - retries` of the backoff formula is `Math.pow` on
  JavaScript numbers; it is modelled with natural-number subtraction,
  which agrees with the source whenever `retries ≤ 2` (always the case
  under the default `maxRetries = 2`).
-/

/-- Model of a JavaScript value produced by `JSON.parse` (plus `undefined`). -/
inductive JsValue where
  | undef : JsValue
  | str : String → JsValue
  | num : Int → JsValue
  | arr : List JsValue → JsValue
  | obj : List (String × JsValue) → JsValue

/-- Error raised by a JavaScript property access on `undefined`. -/
inductive JsErr where
  | typeError : String → JsErr

/-- Property access `v[k]` on a JavaScript value: throws a `TypeError` on
`undefined`, yields the field (or `undefined` when the field is missing) on an
object, and yields `undefined` on any other value. -/
def jsGet : JsValue → String → Except JsErr JsValue
  | JsValue.undef, k => Except.error (JsErr.typeError k)
  | JsValue.obj fs, k =>
      Except.ok (((fs.find? (fun p => p.1 == k)).map (fun p => p.2)).getD JsValue.undef)
  | _, _ => Except.ok JsValue.undef

/-- Index access `v[i]`: throws on `undefined`, yields the element (or
`undefined` out of bounds) on an array, `undefined` otherwise. -/
def jsIndex : JsValue → Nat → Except JsErr JsValue
  | JsValue.undef, i => Except.error (JsErr.typeError (toString i))
  | JsValue.arr xs, i => Except.ok (xs.getD i JsValue.undef)
  | _, _ => Except.ok JsValue.undef

/-- Optional-chaining access `v?.k`: short-circuits to `undefined` when the
receiver is `undefined` instead of throwing. -/
def jsOptGet (v : JsValue) (k : String) : Except JsErr JsValue :=
  match v with
  | JsValue.undef => Except.ok JsValue.undef
  | _ => jsGet v k

/-- JavaScript truthiness of a modelled value. -/
def truthy : JsValue → Bool
  | JsValue.undef => false
  | JsValue.str s => !(s == "")
  | JsValue.num n => !(n == 0)
  | JsValue.arr _ => true
  | JsValue.obj _ => true

/-- The expression `x || emptyString` applied to an access result. -/
def jsOrEmpty (v : JsValue) : JsValue :=
  if truthy v then v else JsValue.str ""

/-- Response parsing of `OpenAIProvider.call`:
`response.choices[0]?.message?.content || two-quotes` (ai-utils.js line 141).
Note the optional chaining starts only after the index access, so a missing
`choices` field throws. -/
def parseOpenAI (response : JsValue) : Except JsErr JsValue := do
  let choices ← jsGet response "choices"
  let c0 ← jsIndex choices 0
  let m ← jsOptGet c0 "message"
  let c ← jsOptGet m "content"
  pure (jsOrEmpty c)

/-- Response parsing of `ClaudeProvider.call`:
`response.content[0]?.text || two-quotes` (ai-utils.js line 186). -/
def parseClaude (response : JsValue) : Except JsErr JsValue := do
  let content ← jsGet response "content"
  let c0 ← jsIndex content 0
  let t ← jsOptGet c0 "text"
  pure (jsOrEmpty t)

/-- Response parsing of `LocalProvider.call`:
`response.choices[0]?.message?.content || response.content || two-quotes`
(ai-utils.js line 237). -/
def parseLocal (response : JsValue) : Except JsErr JsValue := do
  let choices ← jsGet response "choices"
  let c0 ← jsIndex choices 0
  let m ← jsOptGet c0 "message"
  let c ← jsOptGet m "content"
  if truthy c then
    pure c
  else do
    let rc ← jsGet response "content"
    pure (jsOrEmpty rc)

/-- Redaction of an API key for logging, `maskApiKey` (ai-utils.js lines
16-19).  The key is modelled at character level; `none` models a missing
(`undefined`/`null`) key.  `substring (0, 4)` is `take 4` and
`substring (length - 4)` is `drop (length - 4)`. -/
def maskApiKey : Option (List Char) → List Char
  | none => ['*', '*', '*']
  | some s =>
      if s = [] ∨ s.length ≤ 8 then ['*', '*', '*']
      else s.take 4 ++ ['*', '*', '*'] ++ s.drop (s.length - 4)

/-- Outcome of one HTTP attempt, as observed by `makeRequest`'s callbacks:
a 2xx response with parsed body, a non-2xx response (status, optional integer
`Retry-After` header, status message, body text), a request error, or the
per-attempt timer firing before the response completes. -/
inductive Outcome where
  | ok : JsValue → Outcome
  | httpErr : Nat → Option Nat → String → String → Outcome
  | netErr : String → Outcome
  | timedOut : Outcome

/-- Rejection message of the per-attempt timeout handler (ai-utils.js
line 37). -/
def timeoutMsg (t : Nat) : String :=
  "Request timeout after " ++ toString t ++ "ms"

/-- Rejection message for a non-retried HTTP status (ai-utils.js line 75). -/
def failMsg (status : Nat) (statusMessage data : String) : String :=
  "API request failed: " ++ toString status ++ " " ++ statusMessage ++ "\n" ++ data

/-- Result of a (recursive) `makeRequest` call: the value the promise settles
with, the number of attempts issued before it settles, and the list of backoff
delays slept between attempts, in order. -/
structure RunResult where
  result : Except String JsValue
  attempts : Nat
  delays : List Nat

/-- The retry loop `makeRequest` (ai-utils.js lines 31-101) over an abstract
backend assigning an outcome to each attempt index.  A 2xx response resolves;
a 429 with retries left sleeps `retryAfter * 1000 * (3 - retries)` ms and
recurses with `retries - 1`; a 5xx or a request error with retries left sleeps
`1000 * 2 ^ (2 - retries)` ms and recurses; any other status rejects with
`failMsg`; a timeout rejects immediately with `timeoutMsg` (the timeout
handler calls `reject` itself, settling the promise before any retry could). -/
def makeRequest (backend : Nat → Outcome) (attempt retries timeoutMs : Nat) :
    RunResult :=
  match backend attempt with
  | Outcome.ok body => { result := Except.ok body, attempts := 1, delays := [] }
  | Outcome.timedOut =>
      { result := Except.error (timeoutMsg timeoutMs), attempts := 1, delays := [] }
  | Outcome.httpErr status retryAfter statusMessage data =>
      if h : status = 429 ∧ 0 < retries then
        let delay := (retryAfter.getD 5) * 1000 * (3 - retries)
        let rest := makeRequest backend (attempt + 1) (retries - 1) timeoutMs
        { result := rest.result, attempts := rest.attempts + 1,
          delays := delay :: rest.delays }
      else if h2 : 500 ≤ status ∧ 0 < retries then
        let delay := 1000 * 2 ^ (2 - retries)
        let rest := makeRequest backend (attempt + 1) (retries - 1) timeoutMs
        { result := rest.result, attempts := rest.attempts + 1,
          delays := delay :: rest.delays }
      else
        { result := Except.error (failMsg status statusMessage data),
          attempts := 1, delays := [] }
  | Outcome.netErr msg =>
      if h : 0 < retries then
        let delay := 1000 * 2 ^ (2 - retries)
        let rest := makeRequest backend (attempt + 1) (retries - 1) timeoutMs
        { result := rest.result, attempts := rest.attempts + 1,
          delays := delay :: rest.delays }
      else
        { result := Except.error msg, attempts := 1, delays := [] }
termination_by retries
decreasing_by
  all_goals omega

/-- Provider family selected by the factory. -/
inductive ProviderKind where
  | openai : ProviderKind
  | claude : ProviderKind
  | localAI : ProviderKind
deriving DecidableEq

/-- State stored by the three provider constructors (ai-utils.js lines
107-113, 152-158, 197-204): the resolved key, base URL (with one trailing
slash stripped), model, per-attempt timeout and retry budget. -/
structure Provider where
  kind : ProviderKind
  apiKey : String
  baseUrl : String
  model : String
  timeout : Nat
  maxRetries : Nat

/-- Configuration object consumed by `createAIProvider`; `none` models an
absent (`undefined`) field. -/
structure Config where
  provider : Option String
  apiKey : Option String
  baseUrl : Option String
  model : Option String
  timeout : Option Nat
  maxRetries : Option Nat

/-- One trailing slash removed, as `baseUrl.replace` with a `/$` pattern does
in the constructors. -/
def stripTrailingSlash (s : String) : String :=
  if s.data.getLast? = some '/' then String.mk s.data.dropLast else s

/-- The `toLowerCase` call of the provider switch, as a character map. -/
def jsToLowerCase (s : String) : String :=
  String.mk (s.data.map Char.toLower)

/-- The JavaScript idiom `s || dflt` on an optional string: the default is
used when the value is absent or empty. -/
def jsOrString (v : Option String) (dflt : String) : String :=
  match v with
  | none => dflt
  | some s => if s = "" then dflt else s

/-- The provider factory `createAIProvider` (ai-utils.js lines 248-280).
Destructuring defaults: `provider = openai`, `timeout = 30000`,
`maxRetries = 2` (applied when the field is absent).  A falsy `apiKey` with
`provider` not strictly equal to `local` throws; the switch is on
`provider.toLowerCase()`; the `local` case throws when `baseUrl` is falsy and
otherwise passes `timeout || 60000` (where `timeout` already carries the
destructuring default). -/
def createAIProvider (config : Config) : Except String Provider :=
  let provider := config.provider.getD "openai"
  let timeout := config.timeout.getD 30000
  let maxRetries := config.maxRetries.getD 2
  if config.apiKey.getD "" = "" ∧ provider ≠ "local" then
    Except.error ("API key is required for provider: " ++ provider)
  else if jsToLowerCase provider = "openai" then
    Except.ok
      { kind := ProviderKind.openai
        apiKey := config.apiKey.getD ""
        baseUrl := stripTrailingSlash (jsOrString config.baseUrl "https://api.openai.com/v1")
        model := jsOrString config.model "gpt-3.5-turbo"
        timeout := timeout
        maxRetries := maxRetries }
  else if jsToLowerCase provider = "claude" then
    Except.ok
      { kind := ProviderKind.claude
        apiKey := config.apiKey.getD ""
        baseUrl := stripTrailingSlash (jsOrString config.baseUrl "https://api.anthropic.com")
        model := jsOrString config.model "claude-3-sonnet-20240229"
        timeout := timeout
        maxRetries := maxRetries }
  else if jsToLowerCase provider = "local" then
    if (config.baseUrl.getD "") = "" then
      Except.error "baseUrl is required for local provider"
    else
      Except.ok
        { kind := ProviderKind.localAI
          apiKey := config.apiKey.getD ""
          baseUrl := stripTrailingSlash (config.baseUrl.getD "")
          model := jsOrString config.model "llama2"
          timeout := if timeout ≠ 0 then timeout else 60000
          maxRetries := maxRetries }
  else
    Except.error ("Unsupported AI provider: " ++ provider ++ ". Supported: openai, claude, local")

/-- An HTTP request as assembled by a provider adapter: URL, method, header
list and JSON body. -/
structure HttpRequest where
  url : String
  method : String
  headers : List (String × String)
  body : JsValue

/-- Request assembly of `ClaudeProvider.call` (ai-utils.js lines 160-182):
`POST {baseUrl}/v1/messages` with JSON content type, `x-api-key` and
`anthropic-version: 2023-06-01` headers; the body holds the model, a
`max_tokens: 2000` budget and a messages array with the single user turn, and
gains a top-level `system` field only when the `if (systemPrompt)` truthiness
check passes (line 171) — an absent and an empty-string system prompt both
leave the field out. -/
def claudeRequest (p : Provider) (prompt : String) (systemPrompt : Option String) :
    HttpRequest :=
  let base := [("model", JsValue.str p.model),
               ("max_tokens", JsValue.num 2000),
               ("messages", JsValue.arr
                 [JsValue.obj [("role", JsValue.str "user"),
                               ("content", JsValue.str prompt)]])]
  { url := p.baseUrl ++ "/v1/messages",
    method := "POST",
    headers := [("Content-Type", "application/json"),
                ("x-api-key", p.apiKey),
                ("anthropic-version", "2023-06-01")],
    body :=
      match systemPrompt with
      | some s =>
          if s = "" then JsValue.obj base
          else JsValue.obj (base ++ [("system", JsValue.str s)])
      | none => JsValue.obj base }

/-- Field lookup on a modelled JSON object; `none` both when the value is not
an object and when the field is absent. -/
def objField : JsValue → String → Option JsValue
  | JsValue.obj fs, k => (fs.find? (fun p => p.1 == k)).map (fun p => p.2)
  | _, _ => none

/-- Header lookup on an assembled request. -/
def headerValue (r : HttpRequest) (k : String) : Option String :=
  (r.headers.find? (fun p => p.1 == k)).map (fun p => p.2)

/-- Error label each provider's `call` wraps around a transport or parse
failure (ai-utils.js lines 143, 188, 239). -/
def apiErrorLabel : ProviderKind → String
  | ProviderKind.openai => "OpenAI API error: "
  | ProviderKind.claude => "Claude API error: "
  | ProviderKind.localAI => "Local AI API error: "

/-- Response parser used by each provider's `call`. -/
def parseFor : ProviderKind → JsValue → Except JsErr JsValue
  | ProviderKind.openai => parseOpenAI
  | ProviderKind.claude => parseClaude
  | ProviderKind.localAI => parseLocal

/-- Message text of a thrown `TypeError`. -/
def JsErr.message : JsErr → String
  | JsErr.typeError k => "Cannot read properties of undefined (reading " ++ k ++ ")"

/-- The facade `callAI` (ai-utils.js lines 285-296) over the abstract
backend: the factory runs first and a configuration error propagates before
any attempt is issued; otherwise the provider's `call` drives `makeRequest`
with the resolved retry budget and timeout and parses the settled body.
Returns the settled value together with the number of HTTP attempts issued. -/
def callAI (backend : Nat → Outcome) (config : Config)
    (_prompt : String) (_systemPrompt : Option String) :
    Except String JsValue × Nat :=
  match createAIProvider config with
  | Except.error e => (Except.error e, 0)
  | Except.ok p =>
      let run := makeRequest backend 0 p.maxRetries p.timeout
      match run.result with
      | Except.error e =>
          (Except.error (apiErrorLabel p.kind ++ e), run.attempts)
      | Except.ok body =>
          match parseFor p.kind body with
          | Except.error e =>
              (Except.error (apiErrorLabel p.kind ++ e.message), run.attempts)
          | Except.ok v => (Except.ok v, run.attempts)

/-! Step lemmas for `makeRequest`, one per callback branch of the source. -/

/-- A 2xx response resolves the promise at once: one attempt, no delay. -/
theorem makeRequest_resolve (backend : Nat → Outcome) (attempt retries timeoutMs : Nat)
    (body : JsValue) (h : backend attempt = Outcome.ok body) :
    makeRequest backend attempt retries timeoutMs =
      { result := Except.ok body, attempts := 1, delays := [] } := by
  rw [makeRequest.eq_def, h]

/-- A 429 with retries left sleeps `retryAfter * 1000 * (3 - retries)` ms
(with `retries` counted before the decrement) and continues with one fewer
retry. -/
theorem makeRequest_rateLimited (backend : Nat → Outcome)
    (attempt retries timeoutMs : Nat) (ra : Option Nat) (sm data : String)
    (h : backend attempt = Outcome.httpErr 429 ra sm data) (hr : 0 < retries) :
    makeRequest backend attempt retries timeoutMs =
      { result := (makeRequest backend (attempt + 1) (retries - 1) timeoutMs).result,
        attempts := (makeRequest backend (attempt + 1) (retries - 1) timeoutMs).attempts + 1,
        delays := (ra.getD 5) * 1000 * (3 - retries) ::
          (makeRequest backend (attempt + 1) (retries - 1) timeoutMs).delays } := by
  rw [makeRequest.eq_def, h]
  dsimp only
  rw [dif_pos ⟨rfl, hr⟩]

/-- A 5xx with retries left sleeps `1000 * 2 ^ (2 - retries)` ms and continues
with one fewer retry. -/
theorem makeRequest_serverError (backend : Nat → Outcome)
    (attempt retries timeoutMs status : Nat) (ra : Option Nat) (sm data : String)
    (h : backend attempt = Outcome.httpErr status ra sm data)
    (h5 : 500 ≤ status) (hr : 0 < retries) :
    makeRequest backend attempt retries timeoutMs =
      { result := (makeRequest backend (attempt + 1) (retries - 1) timeoutMs).result,
        attempts := (makeRequest backend (attempt + 1) (retries - 1) timeoutMs).attempts + 1,
        delays := 1000 * 2 ^ (2 - retries) ::
          (makeRequest backend (attempt + 1) (retries - 1) timeoutMs).delays } := by
  rw [makeRequest.eq_def, h]
  dsimp only
  rw [dif_neg (by omega), dif_pos ⟨h5, hr⟩]

/-- Any other non-2xx status (a 4xx other than 429, a 429 or 5xx with the
budget exhausted, or a 3xx) rejects with `failMsg` at once. -/
theorem makeRequest_reject (backend : Nat → Outcome)
    (attempt retries timeoutMs status : Nat) (ra : Option Nat) (sm data : String)
    (h : backend attempt = Outcome.httpErr status ra sm data)
    (hn1 : ¬(status = 429 ∧ 0 < retries)) (hn2 : ¬(500 ≤ status ∧ 0 < retries)) :
    makeRequest backend attempt retries timeoutMs =
      { result := Except.error (failMsg status sm data), attempts := 1, delays := [] } := by
  rw [makeRequest.eq_def, h]
  dsimp only
  rw [dif_neg hn1, dif_neg hn2]

/-! Concrete backends used as test inputs. -/

/-- Backend whose every attempt times out. -/
def timeoutBackend : Nat → Outcome := fun _ => Outcome.timedOut

/-- Backend answering 500 on every attempt. -/
def backend500 (sm data : String) : Nat → Outcome :=
  fun _ => Outcome.httpErr 500 none sm data

/-- Backend answering one 429 carrying a retry hint of 5 seconds, then 200. -/
def backend429 : Nat → Outcome := fun n =>
  if n = 0 then Outcome.httpErr 429 (some 5) "Too Many Requests" ""
  else Outcome.ok (JsValue.str "ok")

/-- Backend answering 404 on every attempt. -/
def backend404 : Nat → Outcome :=
  fun _ => Outcome.httpErr 404 none "Not Found" "missing"

/-! Claim theorems. -/

/-- C1 counterexample: with the full default retry budget of 2, a first
attempt that times out settles the call immediately — one attempt, no backoff
delay, and in particular not the three attempts a consumed-retry policy would
produce — refuting that a timed-out attempt with `retriesRemaining > 0`
consumes a retry and that the call only fails after the budget is
exhausted. -/
theorem timeout_consumes_retry_cex :
    (makeRequest timeoutBackend 0 2 30000).attempts = 1 ∧
    (makeRequest timeoutBackend 0 2 30000).delays = [] ∧
    (makeRequest timeoutBackend 0 2 30000).result = Except.error (timeoutMsg 30000) ∧
    ¬(makeRequest timeoutBackend 0 2 30000).attempts = 3 := by
  have h : makeRequest timeoutBackend 0 2 30000 =
      { result := Except.error (timeoutMsg 30000), attempts := 1, delays := [] } := by
    rw [makeRequest.eq_def]
    rfl
  rw [h]
  exact ⟨rfl, rfl, rfl, by decide⟩

/-- C1 (amended): an attempt whose per-attempt timer fires before a response
completes rejects the whole call immediately with
`Request timeout after {timeoutMs}ms`, for every retry budget: exactly one
attempt is issued, no retry is consumed and no backoff delay occurs. -/
theorem timeout_rejects_immediately (backend : Nat → Outcome)
    (attempt retries timeoutMs : Nat) (h : backend attempt = Outcome.timedOut) :
    makeRequest backend attempt retries timeoutMs =
      { result := Except.error (timeoutMsg timeoutMs), attempts := 1, delays := [] } := by
  rw [makeRequest.eq_def, h]

/-- Witness for C1 (amended) at a concrete backend, budget and timeout. -/
theorem timeout_rejects_immediately_witness :
    makeRequest timeoutBackend 0 1 5000 =
      { result := Except.error (timeoutMsg 5000), attempts := 1, delays := [] } :=
  timeout_rejects_immediately timeoutBackend 0 1 5000 rfl

/-- C2: a key of length at most 8 redacts to exactly the three asterisks; a
longer key redacts to its first four characters, the three asterisks, and its
last four characters, and every character of the output is an asterisk or one
of those first/last four. -/
theorem maskApiKey_redaction (s : List Char) :
    (s.length ≤ 8 → maskApiKey (some s) = ['*', '*', '*']) ∧
    (8 < s.length →
      maskApiKey (some s) = s.take 4 ++ ['*', '*', '*'] ++ s.drop (s.length - 4) ∧
      ∀ c ∈ maskApiKey (some s), c = '*' ∨ c ∈ s.take 4 ∨ c ∈ s.drop (s.length - 4)) := by
  constructor
  · intro h
    simp [maskApiKey, h]
  · intro h
    have hne : ¬(s = [] ∨ s.length ≤ 8) := by
      rintro (rfl | hle)
      · simp at h
      · omega
    constructor
    · simp [maskApiKey, hne]
    · intro c hc
      rw [maskApiKey] at hc
      rw [if_neg hne] at hc
      simp only [List.mem_append, List.mem_cons, List.not_mem_nil, or_false] at hc
      tauto

/-- Witness for C2: a 9-character key keeps its first and last four characters
around the asterisks; a 3-character key redacts to the asterisks alone. -/
theorem maskApiKey_redaction_witness :
    maskApiKey (some ['a', 'b', 'c', 'd', 'e', 'f', 'g', 'h', 'i']) =
      ['a', 'b', 'c', 'd', '*', '*', '*', 'f', 'g', 'h', 'i'] ∧
    maskApiKey (some ['a', 'b', 'c']) = ['*', '*', '*'] := by
  constructor
  · have h := (maskApiKey_redaction ['a', 'b', 'c', 'd', 'e', 'f', 'g', 'h', 'i']).2
      (by decide)
    exact h.1.trans (by decide)
  · exact (maskApiKey_redaction ['a', 'b', 'c']).1 (by decide)

/-- C3: with a retry budget of 2 and a backend answering 500 on every attempt,
exactly three attempts occur, the backoff delays are 1000 ms and then 2000 ms
per `1000 * 2 ^ (2 - retries)`, and the call finally rejects with the
server-error message carrying status 500. -/
theorem serverError_three_attempts (sm data : String) (t : Nat) :
    makeRequest (backend500 sm data) 0 2 t =
      { result := Except.error (failMsg 500 sm data), attempts := 3,
        delays := [1000, 2000] } := by
  have h1 := makeRequest_serverError (backend500 sm data) 0 2 t 500 none sm data
    rfl (by omega) (by omega)
  have h2 := makeRequest_serverError (backend500 sm data) 1 1 t 500 none sm data
    rfl (by omega) (by omega)
  have h3 := makeRequest_reject (backend500 sm data) 2 0 t 500 none sm data
    rfl (by omega) (by omega)
  rw [h1, h2, h3]
  norm_num

/-- C4: a 429 answer with retries left delays the next attempt by
`retryAfterSeconds * 1000 * (3 - retriesRemaining)` ms, with
`retryAfterSeconds` the integer retry hint defaulting to 5 and
`retriesRemaining` counted before the retry is consumed; in particular a
single 429 with hint 5 followed by a 200 yields two attempts with a single
5000 ms delay under the default budget of 2. -/
theorem rateLimited_delay (backend : Nat → Outcome)
    (attempt retries timeoutMs : Nat) (ra : Option Nat) (sm data : String)
    (hb : backend attempt = Outcome.httpErr 429 ra sm data) (hr : 0 < retries) :
    (makeRequest backend attempt retries timeoutMs).delays =
      (ra.getD 5) * 1000 * (3 - retries) ::
        (makeRequest backend (attempt + 1) (retries - 1) timeoutMs).delays ∧
    makeRequest backend429 0 2 30000 =
      { result := Except.ok (JsValue.str "ok"), attempts := 2, delays := [5000] } := by
  constructor
  · rw [makeRequest_rateLimited backend attempt retries timeoutMs ra sm data hb hr]
  · have h1 := makeRequest_rateLimited backend429 0 2 30000 (some 5)
      "Too Many Requests" "" rfl (by omega)
    have h2 := makeRequest_resolve backend429 1 1 30000 (JsValue.str "ok") rfl
    rw [h1, h2]
    norm_num

/-- Witness for C4 at the concrete 429-then-200 backend with budget 2. -/
theorem rateLimited_delay_witness :
    (makeRequest backend429 0 2 30000).delays =
      ((some 5).getD 5) * 1000 * (3 - 2) ::
        (makeRequest backend429 1 1 30000).delays ∧
    makeRequest backend429 0 2 30000 =
      { result := Except.ok (JsValue.str "ok"), attempts := 2, delays := [5000] } :=
  rateLimited_delay backend429 0 2 30000 (some 5) "Too Many Requests" ""
    rfl (by decide)

/-- C5: a 4xx status other than 429 is never retried, whatever the retry
budget: the call rejects at once, after exactly one attempt and with no
delay, with the message carrying the status code and the response body. -/
theorem fatalClientError_no_retry (backend : Nat → Outcome)
    (attempt retries timeoutMs status : Nat) (ra : Option Nat) (sm data : String)
    (hb : backend attempt = Outcome.httpErr status ra sm data)
    (h4 : 400 ≤ status) (h5 : status < 500) (h429 : status ≠ 429) :
    makeRequest backend attempt retries timeoutMs =
      { result := Except.error (failMsg status sm data), attempts := 1,
        delays := [] } :=
  makeRequest_reject backend attempt retries timeoutMs status ra sm data hb
    (by omega) (by omega)

/-- Witness for C5: a 404 with a large budget of 5 still gets one attempt. -/
theorem fatalClientError_no_retry_witness :
    makeRequest backend404 0 5 30000 =
      { result := Except.error (failMsg 404 "Not Found" "missing"), attempts := 1,
        delays := [] } :=
  fatalClientError_no_retry backend404 0 5 30000 404 none "Not Found" "missing"
    rfl (by decide) (by decide) (by decide)

/-- C6: any configuration selecting the local provider without a base URL is
rejected by the factory with the configuration error
`baseUrl is required for local provider`, and the facade therefore issues
zero HTTP attempts whatever the backend would have answered. -/
theorem localNoBaseUrl_config_error (backend : Nat → Outcome) (config : Config)
    (prompt : String) (systemPrompt : Option String)
    (hp : config.provider = some "local") (hb : config.baseUrl = none) :
    createAIProvider config = Except.error "baseUrl is required for local provider" ∧
    (callAI backend config prompt systemPrompt).2 = 0 := by
  have hcp : createAIProvider config =
      Except.error "baseUrl is required for local provider" := by
    unfold createAIProvider
    rw [hp, hb]
    simp [jsToLowerCase]
  refine ⟨hcp, ?_⟩
  unfold callAI
  rw [hcp]

/-- Configuration selecting the local provider with every other field
absent. -/
def localNoUrlConfig : Config :=
  { provider := some "local", apiKey := none, baseUrl := none, model := none,
    timeout := none, maxRetries := none }

/-- Witness for C6 at a concrete configuration and backend. -/
theorem localNoBaseUrl_config_error_witness :
    createAIProvider localNoUrlConfig =
      Except.error "baseUrl is required for local provider" ∧
    (callAI timeoutBackend localNoUrlConfig "p" none).2 = 0 :=
  localNoBaseUrl_config_error timeoutBackend localNoUrlConfig "p" none rfl rfl

/-- C7: on the well-formed but content-less 2xx body `{}` — the response
object present but the `choices` / `content` field absent entirely — all
three provider parsers throw a `TypeError` (reading index 0 of `undefined`)
instead of returning the empty string; only when the content list is present
(e.g. empty) do they return the empty string. -/
theorem parse_throws_on_missing_content :
    parseOpenAI (JsValue.obj []) = Except.error (JsErr.typeError "0") ∧
    parseClaude (JsValue.obj []) = Except.error (JsErr.typeError "0") ∧
    parseLocal (JsValue.obj []) = Except.error (JsErr.typeError "0") ∧
    parseOpenAI (JsValue.obj [("choices", JsValue.arr [])]) =
      Except.ok (JsValue.str "") ∧
    parseClaude (JsValue.obj [("content", JsValue.arr [])]) =
      Except.ok (JsValue.str "") ∧
    parseLocal (JsValue.obj [("choices", JsValue.arr [])]) =
      Except.ok (JsValue.str "") :=
  ⟨rfl, rfl, rfl, rfl, rfl, rfl⟩

/-- Configuration for the local provider with a base URL and no timeout. -/
def localDefaultConfig : Config :=
  { provider := some "local", apiKey := some "k",
    baseUrl := some "http://localhost:8080", model := none, timeout := none,
    maxRetries := none }

/-- C8: with `timeout` absent the factory resolves a per-attempt timeout of
30000 ms for openai and claude with the documented model defaults and
`maxRetries = 2` — but the local provider also gets 30000 ms (not the
documented 60000 ms: the destructuring default 30000 preempts the
`timeout || 60000` fallback), with model `llama2` and `maxRetries = 2`. -/
theorem factory_defaults_eval :
    createAIProvider
      { provider := some "openai", apiKey := some "k", baseUrl := none,
        model := none, timeout := none, maxRetries := none } =
      Except.ok
        { kind := ProviderKind.openai, apiKey := "k",
          baseUrl := "https://api.openai.com/v1", model := "gpt-3.5-turbo",
          timeout := 30000, maxRetries := 2 } ∧
    createAIProvider
      { provider := some "claude", apiKey := some "k", baseUrl := none,
        model := none, timeout := none, maxRetries := none } =
      Except.ok
        { kind := ProviderKind.claude, apiKey := "k",
          baseUrl := "https://api.anthropic.com",
          model := "claude-3-sonnet-20240229",
          timeout := 30000, maxRetries := 2 } ∧
    createAIProvider localDefaultConfig =
      Except.ok
        { kind := ProviderKind.localAI, apiKey := "k",
          baseUrl := "http://localhost:8080", model := "llama2",
          timeout := 30000, maxRetries := 2 } :=
  ⟨rfl, rfl, rfl⟩

/-- C9: the claude adapter issues `POST {baseUrl}/v1/messages` with the JSON
content type, `x-api-key` and `anthropic-version: 2023-06-01` headers, and a
body carrying the model, `max_tokens = 2000` and a messages array holding
exactly the single user turn; a supplied (truthy, i.e. non-empty) system
prompt appears only as the top-level `system` field, which is absent when no
system prompt is given — and also when the supplied system prompt is the
empty string, which fails the source's `if (systemPrompt)` truthiness
check. -/
theorem claude_request_shape (p : Provider) (prompt sys : String) (hs : sys ≠ "") :
    (claudeRequest p prompt (some sys)).method = "POST" ∧
    (claudeRequest p prompt (some sys)).url = p.baseUrl ++ "/v1/messages" ∧
    headerValue (claudeRequest p prompt (some sys)) "Content-Type" =
      some "application/json" ∧
    headerValue (claudeRequest p prompt (some sys)) "x-api-key" = some p.apiKey ∧
    headerValue (claudeRequest p prompt (some sys)) "anthropic-version" =
      some "2023-06-01" ∧
    objField (claudeRequest p prompt (some sys)).body "model" =
      some (JsValue.str p.model) ∧
    objField (claudeRequest p prompt (some sys)).body "max_tokens" =
      some (JsValue.num 2000) ∧
    objField (claudeRequest p prompt (some sys)).body "messages" =
      some (JsValue.arr [JsValue.obj [("role", JsValue.str "user"),
        ("content", JsValue.str prompt)]]) ∧
    objField (claudeRequest p prompt (some sys)).body "system" =
      some (JsValue.str sys) ∧
    objField (claudeRequest p prompt none).body "system" = none ∧
    objField (claudeRequest p prompt none).body "messages" =
      some (JsValue.arr [JsValue.obj [("role", JsValue.str "user"),
        ("content", JsValue.str prompt)]]) ∧
    objField (claudeRequest p prompt (some "")).body "system" = none := by
  refine ⟨rfl, rfl, rfl, rfl, rfl, ?_, ?_, ?_, ?_, rfl, rfl, rfl⟩ <;>
    simp [claudeRequest, objField, hs]

/-- Provider state as the factory resolves it for claude with defaults. -/
def claudeTestProvider : Provider :=
  { kind := ProviderKind.claude, apiKey := "k",
    baseUrl := "https://api.anthropic.com", model := "claude-3-sonnet-20240229",
    timeout := 30000, maxRetries := 2 }

/-- Witness for C9 at a concrete provider, user prompt and non-empty system
prompt. -/
theorem claude_request_shape_witness :
    (claudeRequest claudeTestProvider "hi" (some "be brief")).method = "POST" ∧
    (claudeRequest claudeTestProvider "hi" (some "be brief")).url =
      claudeTestProvider.baseUrl ++ "/v1/messages" ∧
    headerValue (claudeRequest claudeTestProvider "hi" (some "be brief"))
      "Content-Type" = some "application/json" ∧
    headerValue (claudeRequest claudeTestProvider "hi" (some "be brief"))
      "x-api-key" = some claudeTestProvider.apiKey ∧
    headerValue (claudeRequest claudeTestProvider "hi" (some "be brief"))
      "anthropic-version" = some "2023-06-01" ∧
    objField (claudeRequest claudeTestProvider "hi" (some "be brief")).body
      "model" = some (JsValue.str claudeTestProvider.model) ∧
    objField (claudeRequest claudeTestProvider "hi" (some "be brief")).body
      "max_tokens" = some (JsValue.num 2000) ∧
    objField (claudeRequest claudeTestProvider "hi" (some "be brief")).body
      "messages" = some (JsValue.arr [JsValue.obj [("role", JsValue.str "user"),
        ("content", JsValue.str "hi")]]) ∧
    objField (claudeRequest claudeTestProvider "hi" (some "be brief")).body
      "system" = some (JsValue.str "be brief") ∧
    objField (claudeRequest claudeTestProvider "hi" none).body "system" = none ∧
    objField (claudeRequest claudeTestProvider "hi" none).body "messages" =
      some (JsValue.arr [JsValue.obj [("role", JsValue.str "user"),
        ("content", JsValue.str "hi")]]) ∧
    objField (claudeRequest claudeTestProvider "hi" (some "")).body "system" =
      none :=
  claude_request_shape claudeTestProvider "hi" "be brief" (by decide)

/-- C10: `maskApiKey` is total over missing keys — an absent
(`undefined`/`null`) key and the empty key both redact to exactly the three
asterisks without throwing, so the facade's redacted log line is well-defined
when no API key is configured. -/
theorem maskApiKey_missing_total :
    maskApiKey none = ['*', '*', '*'] ∧ maskApiKey (some []) = ['*', '*', '*'] :=
  ⟨rfl, rfl⟩
